import Mathlib

/-!
Shallow embedding of `src/index.ts` (class `SimpleNavApp`): a session-driven
display controller that polls a navigation-status endpoint and renders
animated text cards.  Machine numbers (TypeScript `number`) are modelled as
rationals; randomness (`Math.random()`) is modelled as explicit choice
streams; the event loop is modelled as a small-step state machine with
explicit stop-signal delivery points.
-/

namespace PirNav

/-! ## Settings (`mentraosSettings` object, src/index.ts lines 46-63) -/

/-- View targets of the display SDK used by the app (`ViewType.MAIN`,
`ViewType.DASHBOARD`). -/
inductive ViewType where
  | MAIN
  | DASHBOARD
  deriving DecidableEq, Repr

/-- The `dashboard` sub-object of `mentraosSettings`. -/
structure DashboardSettings where
  speedUnit : String
  etaUnit : String
  distanceUnit : String
  deriving DecidableEq, Repr

/-- The `animation` sub-object of `mentraosSettings`. -/
structure AnimationSettings where
  hackerTextSpeedMs : ℕ
  flickerDurationMs : ℕ
  flickerCharset : String
  alertBounceCount : ℕ
  deriving DecidableEq, Repr

/-- The fields of `mentraosSettings` that the core logic reads. -/
structure Settings where
  defaultView : ViewType
  updateIntervalMs : ℕ
  animation : AnimationSettings
  dashboard : DashboardSettings
  deriving DecidableEq, Repr

/-- `mentraosSettings` (src/index.ts lines 46-63).  The two braces in the
flicker charset are written with `\x7b`/`\x7d` escapes. -/
def mentraosSettings : Settings :=
  { defaultView := ViewType.MAIN
    updateIntervalMs := 2000
    animation :=
      { hackerTextSpeedMs := 50
        flickerDurationMs := 1200
        flickerCharset := "abcdefghijklmnopqrstuvwxyz0123456789<>/\\|\x7b\x7d[]()!@#$%^&*"
        alertBounceCount := 3 }
    dashboard :=
      { speedUnit := "kph"
        etaUnit := "min"
        distanceUnit := "m" } }

/-- The flicker charset as a list of characters (the code indexes into the
string character by character). -/
def flickerCharsetList : List Char :=
  mentraosSettings.animation.flickerCharset.data

/-! ## JavaScript numeric primitives used by the code -/

/-- JS `Math.ceil` on a rational value. -/
def jsCeil (q : ℚ) : ℤ := ⌈q⌉

/-- JS `Math.round` on a rational value (rounds half toward positive
infinity). -/
def jsRound (q : ℚ) : ℤ := ⌊q + 1 / 2⌋

/-- JS `x.toFixed(1)`: round to one decimal digit (nearest, ties toward the
larger value) and print with exactly one digit after the decimal point. -/
def jsToFixed1 (q : ℚ) : String :=
  let n : ℤ := ⌊q * 10 + 1 / 2⌋
  let a : ℕ := n.natAbs
  (if n < 0 then "-" else "") ++ toString (a / 10) ++ "." ++ toString (a % 10)

/-- JS `s.replace(pat, rep)` with a single-character string pattern: replace
only the first occurrence. -/
def jsReplaceCharFirst (a b : Char) : List Char → List Char
  | [] => []
  | c :: rest => if c = a then b :: rest else c :: jsReplaceCharFirst a b rest

/-- String wrapper for `jsReplaceCharFirst`. -/
def jsReplaceFirst (s : String) (a b : Char) : String :=
  ⟨jsReplaceCharFirst a b s.data⟩

/-- JS `s.toUpperCase()` on the ASCII strings the app feeds it (character
by character uppercasing). -/
def jsToUpper (s : String) : String :=
  ⟨s.data.map Char.toUpper⟩

/-! ## Data model -/

/-- The `NavStatus` record as it exists at runtime after `fetchNavStatus`'s
checks: the four numeric fields are JS numbers (modelled as rationals),
`nextAction` is a string (the TypeScript union type is erased at runtime and
the validation only checks `typeof === "string"`), `danger` is a boolean. -/
structure NavStatus where
  danger : Bool
  distanceToLocationMeters : ℚ
  distanceToNextActionMeters : ℚ
  nextAction : String
  etaSeconds : ℚ
  speedKph : ℚ
  deriving DecidableEq, Repr

/-- The `NextAction` union type of src/index.ts lines 26-31, as the list of
its string members (used to state claims about enum membership). -/
def nextActionEnum : List String :=
  ["turn-left", "turn-right", "u-turn", "straight", "arrived"]

/-- A `NavStatus` whose values satisfy the documented data model: numeric
fields non-negative and `nextAction` inside the union type. -/
def validNavStatus (nav : NavStatus) : Prop :=
  0 ≤ nav.distanceToLocationMeters ∧ 0 ≤ nav.distanceToNextActionMeters ∧
    nav.nextAction ∈ nextActionEnum ∧ 0 ≤ nav.etaSeconds ∧ 0 ≤ nav.speedKph

instance : DecidablePred validNavStatus := by
  intro nav
  unfold validNavStatus
  infer_instance

/-! ## Animation renderer (`animateHackerText`, src/index.ts lines 192-232)

One call of `session.layouts.showTextWall` is one emitted frame.  The
typewriter loop accumulates `out += text[i]` and shows `out` after each
append; the flicker loop runs for a wall-clock duration (modelled as an
arbitrary number of ticks) and shows a per-character random substitution of
the text; the final call shows the unmodified text with a hold duration. -/

/-- One frame handed to `session.layouts.showTextWall`. -/
structure Frame where
  text : List Char
  view : ViewType
  durationMs : Option ℕ
  deriving DecidableEq, Repr

/-- The typewriter loop of `animateHackerText`: `out` starts empty, each
iteration appends one character of the remaining text and emits a frame
showing the accumulated `out`. -/
def typewriterFramesAux (out : List Char) : List Char → List (List Char)
  | [] => []
  | c :: rest => (out ++ [c]) :: typewriterFramesAux (out ++ [c]) rest

/-- Frames emitted by the typewriter phase for `text`. -/
def typewriterFrames (text : List Char) : List (List Char) :=
  typewriterFramesAux [] text

/-- One pass of `text.split("").map(...)` in the flicker loop.  The random
draws of one tick are determinized into `rep` (whether `Math.random() < 0.2`
fired for the character at each position) and `pick` (the charset index
`Math.floor(Math.random() * charset.length)` drawn for each position, always
in range because `Math.random() < 1`). -/
def flickerMapChars (rep : ℕ → Bool) (pick : ℕ → Fin flickerCharsetList.length) :
    ℕ → List Char → List Char
  | _, [] => []
  | i, c :: rest =>
      (if rep i then flickerCharsetList.get (pick i) else c) ::
        flickerMapChars rep pick (i + 1) rest

/-- The frame emitted by one flicker tick. -/
def flickerFrame (text : List Char) (rep : ℕ → Bool)
    (pick : ℕ → Fin flickerCharsetList.length) : List Char :=
  flickerMapChars rep pick 0 text

/-- Frames emitted by the flicker phase.  The wall-clock loop condition
`Date.now() - start < flickerDurationMs` is modelled by an arbitrary tick
count `nTicks`; tick `t` consumes its own fresh random draws `rep t` and
`pick t`. -/
def flickerFrames (text : List Char) (nTicks : ℕ) (rep : ℕ → ℕ → Bool)
    (pick : ℕ → ℕ → Fin flickerCharsetList.length) : List (List Char) :=
  (List.range nTicks).map fun t => flickerFrame text (rep t) (pick t)

/-- All frames emitted by one call of `animateHackerText session text view`:
typewriter frames, then flicker frames, then the final stable frame showing
the unmodified text with `durationMs: 1200`. -/
def animateHackerText (text : List Char) (view : ViewType) (nTicks : ℕ)
    (rep : ℕ → ℕ → Bool) (pick : ℕ → ℕ → Fin flickerCharsetList.length) :
    List Frame :=
  (typewriterFrames text).map (fun s => ⟨s, view, none⟩) ++
    (flickerFrames text nTicks rep pick).map (fun s => ⟨s, view, none⟩) ++
    [⟨text, view, some 1200⟩]

/-! ## UI cycle composer (`cycleUI`, src/index.ts lines 145-189)

Each call of `animateHackerText` inside `cycleUI` is one card; `cycleUI` is
modelled as the ordered list of `(text, view)` pairs it renders. -/

/-- The `dashboardTexts` array (src/index.ts lines 147-151). -/
def dashboardTexts (nav : NavStatus) : List String :=
  [ "Speed: " ++ jsToFixed1 nav.speedKph ++ " " ++ mentraosSettings.dashboard.speedUnit
  , "ETA: " ++ toString (jsCeil (nav.etaSeconds / 60)) ++ " " ++
      mentraosSettings.dashboard.etaUnit
  , "Remaining: " ++ toString (jsRound nav.distanceToLocationMeters) ++ " " ++
      mentraosSettings.dashboard.distanceUnit ]

/-- The `nextText` expression (src/index.ts lines 159-162): literal
`"Arrived"` when `nextAction === "arrived"`, otherwise the action with its
first hyphen replaced by a space and uppercased, followed by the rounded
distance and unit. -/
def nextActionText (nav : NavStatus) : String :=
  if nav.nextAction = "arrived" then "Arrived"
  else
    jsToUpper (jsReplaceFirst nav.nextAction '-' ' ') ++ " in " ++
      toString (jsRound nav.distanceToNextActionMeters) ++ " " ++
      mentraosSettings.dashboard.distanceUnit

/-- Text of the danger card (src/index.ts line 174). -/
def dangerCardText : String := "⚠️ Danger Zone! Proceed with caution"

/-- Text of the arrival card (src/index.ts line 185). -/
def arrivalCardText : String := "🎯 Arrived at destination"

/-- The ordered list of cards one `cycleUI(session, nav)` call renders:
the three dashboard cards (view DASHBOARD), the next-action card
(`"Next: " + nextText`, view MAIN), `alertBounceCount` danger cards when
`nav.danger`, and one arrival card when `nav.distanceToLocationMeters < 10`. -/
def cycleUI (nav : NavStatus) : List (String × ViewType) :=
  (dashboardTexts nav).map (fun t => (t, ViewType.DASHBOARD)) ++
    [("Next: " ++ nextActionText nav, ViewType.MAIN)] ++
    (if nav.danger then
      List.replicate mentraosSettings.animation.alertBounceCount
        (dangerCardText, ViewType.MAIN)
    else []) ++
    (if nav.distanceToLocationMeters < 10 then [(arrivalCardText, ViewType.MAIN)]
    else [])

/-- Observer classifying a rendered card into the spec's four card kinds. -/
inductive CardKind where
  | dash
  | next
  | dangerK
  | arrivalK
  deriving DecidableEq, Repr

/-- Classify a card by its view target and text: dashboard cards are the
ones on the DASHBOARD view; on the MAIN view the danger and arrival cards
have fixed texts and every other card is the next-action card. -/
def classifyCard (c : String × ViewType) : CardKind :=
  if c.2 = ViewType.DASHBOARD then CardKind.dash
  else if c.1 = dangerCardText then CardKind.dangerK
  else if c.1 = arrivalCardText then CardKind.arrivalK
  else CardKind.next

/-! ## Status fetcher (`fetchNavStatus`, src/index.ts lines 127-142) -/

/-- A JSON value as seen by the runtime `typeof` checks.  `jundefined` is
what reading a missing field yields; `jobj` stands for any object, array or
null (all of which have `typeof === "object"`). -/
inductive JsonVal where
  | jnum (q : ℚ)
  | jstr (s : String)
  | jbool (b : Bool)
  | jobj
  | jundefined
  deriving DecidableEq, Repr

/-- JS `typeof` on a field value. -/
def jsTypeof : JsonVal → String
  | JsonVal.jnum _ => "number"
  | JsonVal.jstr _ => "string"
  | JsonVal.jbool _ => "boolean"
  | JsonVal.jobj => "object"
  | JsonVal.jundefined => "undefined"

/-- The parsed JSON body as accessed by `fetchNavStatus`: each named field
read off the object (missing fields read as `jundefined`). -/
structure NavPayload where
  danger : JsonVal
  distanceToLocationMeters : JsonVal
  distanceToNextActionMeters : JsonVal
  nextAction : JsonVal
  etaSeconds : JsonVal
  speedKph : JsonVal
  deriving DecidableEq, Repr

/-- The disjunction guarding the `throw new Error("Invalid NavStatus
payload")` statement (src/index.ts lines 131-138). -/
def navStatusInvalid (j : NavPayload) : Bool :=
  jsTypeof j.speedKph != "number" || jsTypeof j.etaSeconds != "number" ||
    jsTypeof j.distanceToNextActionMeters != "number" ||
    jsTypeof j.distanceToLocationMeters != "number" ||
    jsTypeof j.nextAction != "string" || jsTypeof j.danger != "boolean"

/-- The validation part of `fetchNavStatus`: throw on a failed `typeof`
check, otherwise return the payload unchanged (the `as NavStatus` cast does
not inspect values). -/
def validateNavStatus (j : NavPayload) : Except String NavPayload :=
  if navStatusInvalid j then Except.error "Invalid NavStatus payload"
  else Except.ok j

/-- An HTTP response as `fetchNavStatus` consumes it: `resp.ok`,
`resp.status`, and the parsed JSON body. -/
structure HttpResp where
  ok : Bool
  status : ℕ
  body : NavPayload
  deriving DecidableEq, Repr

/-- `fetchNavStatus` (src/index.ts lines 127-142): throw `HTTP <status>` on
a non-success response, otherwise run the `typeof` validation on the body. -/
def fetchNavStatus (resp : HttpResp) : Except String NavPayload :=
  if !resp.ok then Except.error ("HTTP " ++ toString resp.status)
  else validateNavStatus resp.body

/-! ## Session loop (`onSession`, src/index.ts lines 83-111)

The `while (!stopped) { try { fetch; cycleUI } catch { retry notice } ;
sleep }` loop is modelled as a small-step machine.  `onStop` may set the
`stopped` flag at any suspension point; `runP` takes a per-step delivery
schedule.  Each step emits the externally observable actions it performs. -/

/-- Program counter of the loop: at the `while (!stopped)` condition, inside
the try/catch tick body, at the `sleep(updateIntervalMs)` call, or past the
loop. -/
inductive LoopPC where
  | check
  | tickRun
  | pollSleep
  | halted
  deriving DecidableEq, Repr

/-- State of one session loop: program counter, index of the current tick,
and the `stopped` flag the `onStop` closure sets. -/
structure LoopState where
  pc : LoopPC
  tick : ℕ
  stopped : Bool
  deriving DecidableEq, Repr

/-- Observable actions of the loop: a fetch call completing with a result, a
card being rendered (one `animateHackerText` call, identified by its text),
and the poll-interval sleep. -/
inductive LoopAction where
  | fetched (r : Except String NavStatus)
  | rendered (text : String)
  | slept
  deriving Repr

/-- One small step of the loop, given the oracle of per-tick fetch results:
the `while` condition exits when `stopped` is set; the tick body performs
the fetch and either the full card cycle or, when the fetch throws, exactly
one retry notice (the catch block); then the poll sleep runs
unconditionally and the loop returns to the condition. -/
def step (fetches : ℕ → Except String NavStatus) (s : LoopState) :
    LoopState × List LoopAction :=
  match s.pc with
  | LoopPC.check =>
      if s.stopped then ({ s with pc := LoopPC.halted }, [])
      else ({ s with pc := LoopPC.tickRun }, [])
  | LoopPC.tickRun =>
      match fetches s.tick with
      | Except.ok nav =>
          ({ s with pc := LoopPC.pollSleep },
            LoopAction.fetched (Except.ok nav) ::
              (cycleUI nav).map fun c => LoopAction.rendered c.1)
      | Except.error e =>
          ({ s with pc := LoopPC.pollSleep },
            [LoopAction.fetched (Except.error e),
             LoopAction.rendered "Network error — retrying..."])
  | LoopPC.pollSleep =>
      ({ s with pc := LoopPC.check, tick := s.tick + 1 }, [LoopAction.slept])
  | LoopPC.halted => (s, [])

/-- Run the loop for one small step per schedule entry; a `true` entry
delivers the stop signal (sets the flag, as the closure registered in
`sessionStopper` does) just before that step. -/
def runP (fetches : ℕ → Except String NavStatus) :
    List Bool → LoopState → LoopState × List LoopAction
  | [], s => (s, [])
  | d :: ds, s =>
      let s0 : LoopState := if d then { s with stopped := true } else s
      let p := step fetches s0
      let q := runP fetches ds p.1
      (q.1, p.2 ++ q.2)

/-! ## Session registry (`sessionStopper`, `onSession` lines 90-93, `onStop`
lines 113-124)

Each `onSession` invocation `k` allocates a fresh local `stopped` flag
(modelled as slot `k` of a flag store) and registers a closure that sets it;
`onStop` looks the closure up by sessionId, calls it, and deletes the
entry. -/

/-- The mutable state relevant to start/stop bookkeeping: the
`sessionStopper` map (sessionId to the loop instance whose flag the stored
closure sets) and the flag of every loop instance ever started. -/
structure AppState where
  stopper : String → Option ℕ
  flags : ℕ → Bool

/-- The registration part of `onSession` for invocation `k`: `let stopped =
false` plus `this.sessionStopper.set(sessionId, () => { stopped = true })`.
An existing entry for the same sessionId is silently overwritten. -/
def onSessionReg (st : AppState) (sid : String) (k : ℕ) : AppState :=
  { stopper := fun s => if s = sid then some k else st.stopper s
    flags := fun i => if i = k then false else st.flags i }

/-- `onStop`: look up the stopper for the sessionId; when present, call it
(setting that loop instance's flag) and delete the entry; otherwise do
nothing. -/
def onStopReg (st : AppState) (sid : String) : AppState :=
  match st.stopper sid with
  | some k =>
      { stopper := fun s => if s = sid then none else st.stopper s
        flags := fun i => if i = k then true else st.flags i }
  | none => st

/-! ## Helper lemmas -/

lemma typewriterFramesAux_length (l : List Char) :
    ∀ out, (typewriterFramesAux out l).length = l.length := by
  induction l with
  | nil => intro out; simp [typewriterFramesAux]
  | cons c rest ih => intro out; simp [typewriterFramesAux, ih]

lemma typewriterFramesAux_get (l : List Char) :
    ∀ out i (h : i < (typewriterFramesAux out l).length),
      (typewriterFramesAux out l).get ⟨i, h⟩ = out ++ l.take (i + 1) := by
  induction l with
  | nil => intro out i h; simp [typewriterFramesAux] at h
  | cons c rest ih =>
      intro out i h
      cases i with
      | zero => simp [typewriterFramesAux]
      | succ i =>
          have h2 : i < (typewriterFramesAux (out ++ [c]) rest).length := by
            simpa [typewriterFramesAux] using h
          have := ih (out ++ [c]) i h2
          simpa [typewriterFramesAux, List.append_assoc] using this

lemma typewriterFrames_length (text : List Char) :
    (typewriterFrames text).length = text.length :=
  typewriterFramesAux_length text []

lemma typewriterFrames_get (text : List Char) (i : ℕ)
    (h : i < (typewriterFrames text).length) :
    (typewriterFrames text).get ⟨i, h⟩ = text.take (i + 1) := by
  simpa using typewriterFramesAux_get text [] i h

lemma flickerMapChars_length (rep : ℕ → Bool)
    (pick : ℕ → Fin flickerCharsetList.length) (l : List Char) :
    ∀ k, (flickerMapChars rep pick k l).length = l.length := by
  induction l with
  | nil => intro k; simp [flickerMapChars]
  | cons c rest ih => intro k; simp [flickerMapChars, ih]

lemma flickerMapChars_get_or (rep : ℕ → Bool)
    (pick : ℕ → Fin flickerCharsetList.length) (l : List Char) :
    ∀ k i (h : i < (flickerMapChars rep pick k l).length) (h2 : i < l.length),
      (flickerMapChars rep pick k l).get ⟨i, h⟩ = l.get ⟨i, h2⟩ ∨
        (flickerMapChars rep pick k l).get ⟨i, h⟩ ∈ flickerCharsetList := by
  induction l with
  | nil => intro k i h h2; simp at h2
  | cons c rest ih =>
      intro k i h h2
      cases i with
      | zero =>
          by_cases hr : rep k
          · right
            simp [flickerMapChars, hr, List.get_mem flickerCharsetList]
          · left
            simp [flickerMapChars, hr]
      | succ i =>
          have hlen : i < (flickerMapChars rep pick (k + 1) rest).length := by
            simpa [flickerMapChars] using h
          have h2' : i < rest.length := by simpa using h2
          have := ih (k + 1) i hlen h2'
          simpa [flickerMapChars] using this

/-! ## Claims about the animation renderer -/

/-- C4: for every input text, every view, every number of flicker ticks and
every outcome of the random draws, the last frame emitted by
`animateHackerText` is the unmodified input text (with the 1200 ms hold). -/
theorem animate_last_frame_is_input (text : List Char) (view : ViewType)
    (nTicks : ℕ) (rep : ℕ → ℕ → Bool)
    (pick : ℕ → ℕ → Fin flickerCharsetList.length) :
    (animateHackerText text view nTicks rep pick).getLast? =
      some ⟨text, view, some 1200⟩ := by
  simp [animateHackerText]

/-- C5: the typewriter phase for a text of length L emits exactly L frames;
frame i is the prefix of the text of length i+1 (so prefix lengths strictly
increase by one with no skipped characters), and each frame extends the
previous one, i.e. frame i's text is a prefix of frame i+1's text. -/
theorem typewriter_frames_are_prefixes (text : List Char) :
    (typewriterFrames text).length = text.length ∧
      (∀ i (h : i < (typewriterFrames text).length),
        (typewriterFrames text).get ⟨i, h⟩ = text.take (i + 1)) ∧
      (∀ i (h : i < (typewriterFrames text).length)
          (h2 : i + 1 < (typewriterFrames text).length),
        ((typewriterFrames text).get ⟨i, h⟩).length <
            ((typewriterFrames text).get ⟨i + 1, h2⟩).length ∧
          ∃ rest, (typewriterFrames text).get ⟨i, h⟩ ++ rest =
            (typewriterFrames text).get ⟨i + 1, h2⟩) := by
  refine ⟨typewriterFrames_length text, typewriterFrames_get text, ?_⟩
  intro i h h2
  have hL : (typewriterFrames text).length = text.length := typewriterFrames_length text
  have hi1 : i + 1 ≤ text.length := by omega
  have hi2 : i + 2 ≤ text.length := by omega
  rw [typewriterFrames_get text i h, typewriterFrames_get text (i + 1) h2]
  constructor
  · rw [List.length_take, List.length_take]
    omega
  · refine ⟨(text[i + 1]?).toList, ?_⟩
    exact (List.take_succ).symm

/-- C7: every flicker tick emits one frame of exactly the input text's
length, and each character of that frame is either the original character at
the same position or a character of the configured flicker charset; the
random draws `rep t` / `pick t` are separate per tick `t` and per character
position, so substitution carries no memory across ticks. -/
theorem flicker_frames_shape (text : List Char) (nTicks : ℕ)
    (rep : ℕ → ℕ → Bool) (pick : ℕ → ℕ → Fin flickerCharsetList.length) :
    (flickerFrames text nTicks rep pick).length = nTicks ∧
      ∀ fr, fr ∈ flickerFrames text nTicks rep pick →
        fr.length = text.length ∧
          ∀ i (h : i < fr.length) (h2 : i < text.length),
            fr.get ⟨i, h⟩ = text.get ⟨i, h2⟩ ∨ fr.get ⟨i, h⟩ ∈ flickerCharsetList := by
  constructor
  · simp [flickerFrames]
  · intro fr hfr
    simp only [flickerFrames, List.mem_map, List.mem_range] at hfr
    obtain ⟨t, _, rfl⟩ := hfr
    exact ⟨flickerMapChars_length (rep t) (pick t) text 0,
      fun i h h2 => flickerMapChars_get_or (rep t) (pick t) text 0 i h h2⟩

/-- Witness for C5 at the concrete text "nav": three frames, the second
frame is "na", and the first frame is a prefix of the second. -/
theorem typewriter_frames_are_prefixes_witness :
    (typewriterFrames "nav".data).length = "nav".data.length ∧
      (typewriterFrames "nav".data).get ⟨1, by decide⟩ = "nav".data.take 2 ∧
      ∃ rest, (typewriterFrames "nav".data).get ⟨0, by decide⟩ ++ rest =
        (typewriterFrames "nav".data).get ⟨1, by decide⟩ :=
  ⟨(typewriter_frames_are_prefixes "nav".data).1,
    (typewriter_frames_are_prefixes "nav".data).2.1 1 (by decide),
    ((typewriter_frames_are_prefixes "nav".data).2.2 0 (by decide) (by decide)).2⟩

/-- Witness for C7 at the concrete text "ab" with one flicker tick that
substitutes position 0 and keeps position 1. -/
theorem flicker_frames_shape_witness :
    (flickerFrame "ab".data (fun i => i == 0) (fun _ => ⟨0, by decide⟩)).length =
        "ab".data.length ∧
      ((flickerFrame "ab".data (fun i => i == 0) (fun _ => ⟨0, by decide⟩)).get
          ⟨1, by decide⟩ = "ab".data.get ⟨1, by decide⟩ ∨
        (flickerFrame "ab".data (fun i => i == 0) (fun _ => ⟨0, by decide⟩)).get
          ⟨1, by decide⟩ ∈ flickerCharsetList) := by
  have h := (flicker_frames_shape "ab".data 1 (fun _ i => i == 0)
    (fun _ _ => ⟨0, by decide⟩)).2
    (flickerFrame "ab".data (fun i => i == 0) (fun _ => ⟨0, by decide⟩))
    (by simp [flickerFrames])
  exact ⟨h.1, h.2 1 (by decide) (by decide)⟩

/-! ## Helper lemmas and concrete inputs for the composer claims -/

lemma next_card_head (s : String) : ("Next: " ++ s).data.head? = some 'N' := by
  rw [String.data_append]
  rfl

lemma next_card_ne_danger (s : String) : "Next: " ++ s ≠ dangerCardText := by
  intro h
  have h2 : ("Next: " ++ s).data.head? = dangerCardText.data.head? := by rw [h]
  rw [next_card_head] at h2
  have h3 : dangerCardText.data.head? = some '⚠' := rfl
  rw [h3] at h2
  exact absurd (Option.some.inj h2) (by decide)

lemma next_card_ne_arrival (s : String) : "Next: " ++ s ≠ arrivalCardText := by
  intro h
  have h2 : ("Next: " ++ s).data.head? = arrivalCardText.data.head? := by rw [h]
  rw [next_card_head] at h2
  have h3 : arrivalCardText.data.head? = some '🎯' := rfl
  rw [h3] at h2
  exact absurd (Option.some.inj h2) (by decide)

/-- The example `NavStatus` of the spec's second testable-property example. -/
def c8nav : NavStatus :=
  { danger := true, distanceToLocationMeters := 500, distanceToNextActionMeters := 120,
    nextAction := "turn-left", etaSeconds := 600, speedKph := 42 }

/-- The example `NavStatus` of the spec's first testable-property example
(arrived, 5 m from the destination). -/
def navArrEx : NavStatus :=
  { danger := false, distanceToLocationMeters := 5, distanceToNextActionMeters := 0,
    nextAction := "arrived", etaSeconds := 0, speedKph := 0 }

lemma jsToFixed1_42 : jsToFixed1 42 = "42.0" := by
  simp only [jsToFixed1]
  rw [show (⌊(42 : ℚ) * 10 + 1 / 2⌋) = 420 from by norm_num]
  decide

lemma jsToFixed1_0 : jsToFixed1 0 = "0.0" := by
  simp only [jsToFixed1]
  rw [show (⌊(0 : ℚ) * 10 + 1 / 2⌋) = 0 from by norm_num]
  decide

lemma jsCeil_600 : jsCeil ((600 : ℚ) / 60) = 10 := by
  simp only [jsCeil]
  norm_num

lemma jsCeil_0 : jsCeil ((0 : ℚ) / 60) = 0 := by
  simp only [jsCeil]
  norm_num

lemma jsRound_500 : jsRound 500 = 500 := by
  simp only [jsRound]
  norm_num [Int.floor_eq_iff]

lemma jsRound_120 : jsRound 120 = 120 := by
  simp only [jsRound]
  norm_num [Int.floor_eq_iff]

lemma jsRound_5 : jsRound 5 = 5 := by
  simp only [jsRound]
  norm_num [Int.floor_eq_iff]

lemma jsRound_0 : jsRound 0 = 0 := by
  simp only [jsRound]
  norm_num [Int.floor_eq_iff]

/-- Substring test on character lists (used to state that a card does or
does not show a given fragment). -/
def strContainsSub (hay need : List Char) : Bool :=
  (List.range (hay.length + 1)).any fun i => need.isPrefixOf (hay.drop i)

/-! ## Claims about the UI cycle composer -/

/-- C1: for every valid `NavStatus`, one `cycleUI` call renders, in this
fixed order: exactly 3 dashboard cards, then exactly 1 next-action card,
then exactly `alertBounceCount` danger cards when `nav.danger` and 0
otherwise, then exactly 1 arrival card when
`nav.distanceToLocationMeters < 10` and 0 otherwise. -/
theorem cycle_card_order (nav : NavStatus) (_hv : validNavStatus nav) :
    (cycleUI nav).map classifyCard =
      [CardKind.dash, CardKind.dash, CardKind.dash, CardKind.next] ++
        (if nav.danger then
          List.replicate mentraosSettings.animation.alertBounceCount CardKind.dangerK
        else []) ++
        (if nav.distanceToLocationMeters < 10 then [CardKind.arrivalK] else []) := by
  by_cases hd : nav.danger <;> by_cases hl : nav.distanceToLocationMeters < 10 <;>
    simp [cycleUI, dashboardTexts, classifyCard, hd, hl, List.map_replicate,
      next_card_ne_danger, next_card_ne_arrival,
      show arrivalCardText ≠ dangerCardText from by decide]

/-- Witness for C1 at the spec's example input (danger on, 500 m out). -/
theorem cycle_card_order_witness :
    (cycleUI c8nav).map classifyCard =
      [CardKind.dash, CardKind.dash, CardKind.dash, CardKind.next] ++
        (if c8nav.danger then
          List.replicate mentraosSettings.animation.alertBounceCount CardKind.dangerK
        else []) ++
        (if c8nav.distanceToLocationMeters < 10 then [CardKind.arrivalK] else []) :=
  cycle_card_order c8nav (by decide)

/-- C8 as stated is false: at the example input the speed card's text is
"Speed: 42.0 kph" (the code renders `speedKph.toFixed(1)`), which neither
equals nor even contains the claimed "42 kph". -/
theorem speed_card_shows_decimal :
    (dashboardTexts c8nav).head? = some "Speed: 42.0 kph" ∧
      strContainsSub "Speed: 42.0 kph".data "42 kph".data = false ∧
      "Speed: 42.0 kph" ≠ "42 kph" := by
  refine ⟨?_, by decide, by decide⟩
  simp [dashboardTexts, c8nav, jsToFixed1_42]
  rfl

/-- C8 amended: at the example input the three dashboard cards read
"Speed: 42.0 kph" (one decimal from `toFixed(1)`), "ETA: 10 min" and
"Remaining: 500 m", and the ETA is the seconds value divided by 60 and
rounded up (e.g. 630 s gives 11 min). -/
theorem dashboard_cards_example :
    dashboardTexts c8nav = ["Speed: 42.0 kph", "ETA: 10 min", "Remaining: 500 m"] ∧
      jsCeil (c8nav.etaSeconds / 60) = 10 ∧ jsCeil ((630 : ℚ) / 60) = 11 := by
  refine ⟨?_, ?_, ?_⟩
  · simp [dashboardTexts, c8nav, mentraosSettings, jsToFixed1_42, jsCeil_600, jsRound_500]
    exact ⟨by decide, by decide⟩
  · simp only [c8nav]
    exact jsCeil_600
  · simp only [jsCeil]
    norm_num [Int.ceil_eq_iff]

/-- C9 as stated is false: when `nextAction == "arrived"` the next-action
card's text is "Next: Arrived", not the literal "Arrived" (the code prepends
"Next: " to every next-action card). -/
theorem next_card_has_next_prefix :
    (cycleUI navArrEx).get? 3 = some ("Next: Arrived", ViewType.MAIN) ∧
      "Next: Arrived" ≠ "Arrived" := by
  refine ⟨?_, by decide⟩
  simp [cycleUI, dashboardTexts, navArrEx, nextActionText,
    show (5 : ℚ) < 10 from by norm_num]

/-- C9 amended: the next-action card is always the fourth card rendered and
its text is "Next: " followed by the literal "Arrived" when
`nextAction == "arrived"`, and otherwise "Next: <action> in <distance> <unit>"
with the action label normalized (first hyphen replaced by a space,
uppercased): concretely "TURN LEFT in 120 m" for "turn-left" at 120 m. -/
theorem next_card_text :
    (∀ nav, (cycleUI nav).get? 3 =
      some ("Next: " ++ nextActionText nav, ViewType.MAIN)) ∧
      nextActionText c8nav = "TURN LEFT in 120 m" ∧
      nextActionText navArrEx = "Arrived" := by
  refine ⟨?_, ?_, ?_⟩
  · intro nav
    simp [cycleUI, dashboardTexts]
  · simp [nextActionText, c8nav, jsRound_120, mentraosSettings]
    decide
  · simp [nextActionText, navArrEx]

/-! ## Claims about the status fetcher -/

/-- A payload every `typeof` check accepts although its `nextAction` is
outside the union type and two numeric fields are negative. -/
def badPayload : NavPayload :=
  { danger := JsonVal.jbool true, distanceToLocationMeters := JsonVal.jnum (-5),
    distanceToNextActionMeters := JsonVal.jnum 0, nextAction := JsonVal.jstr "fly",
    etaSeconds := JsonVal.jnum 0, speedKph := JsonVal.jnum (-3) }

/-- C2 as stated is false: `fetchNavStatus` accepts (returns, rather than
failing on) a payload whose `nextAction` is the string "fly", outside the
`NextAction` enum, and whose `distanceToLocationMeters` is the negative
number -5 — the validation checks `typeof` only, not enum membership or
sign. -/
theorem fetch_accepts_unchecked_values :
    fetchNavStatus ⟨true, 200, badPayload⟩ = Except.ok badPayload ∧
      "fly" ∉ nextActionEnum ∧
      badPayload.distanceToLocationMeters = JsonVal.jnum (-5) ∧ (-5 : ℚ) < 0 :=
  ⟨rfl, by decide, rfl, by decide⟩

/-- C2 amended: `fetchNavStatus`'s validation succeeds exactly when every
required field is present with the right JS runtime type (`typeof`:
number/number/number/number/string/boolean) — a missing field (read as
`undefined`) or a wrongly-typed field makes the whole fetch fail with
"Invalid NavStatus payload", and nothing of a rejected payload is returned;
enum membership of `nextAction` and non-negativity of the numeric fields
are not checked. -/
theorem validate_checks_typeof_only (j : NavPayload) :
    (validateNavStatus j = Except.ok j ↔
      (jsTypeof j.speedKph = "number" ∧ jsTypeof j.etaSeconds = "number" ∧
        jsTypeof j.distanceToNextActionMeters = "number" ∧
        jsTypeof j.distanceToLocationMeters = "number" ∧
        jsTypeof j.nextAction = "string" ∧ jsTypeof j.danger = "boolean")) ∧
      (validateNavStatus j = Except.ok j ∨
        validateNavStatus j = Except.error "Invalid NavStatus payload") := by
  constructor
  · by_cases hb : navStatusInvalid j
    · simp only [navStatusInvalid, Bool.or_eq_true, bne_iff_ne] at hb
      simp [validateNavStatus, navStatusInvalid, hb]
      tauto
    · have hb2 := hb
      simp only [navStatusInvalid, Bool.or_eq_true, bne_iff_ne, not_or, not_not] at hb2
      simp [validateNavStatus, hb]
      tauto
  · by_cases hb : navStatusInvalid j <;> simp [validateNavStatus, hb]

/-! ## Claims about the session loop -/

/-- A fetch oracle that always fails, as a simulated HTTP 500 response
does. -/
def fetchesFail : ℕ → Except String NavStatus :=
  fun _ => Except.error "HTTP 500"

lemma runP_halted (fetches : ℕ → Except String NavStatus) (ds : List Bool) :
    ∀ s : LoopState, s.pc = LoopPC.halted →
      (runP fetches ds s).1.pc = LoopPC.halted ∧
        (runP fetches ds s).1.tick = s.tick ∧ (runP fetches ds s).2 = [] := by
  induction ds with
  | nil => intro s h; simp [runP, h]
  | cons d ds ih =>
      intro s h
      cases d with
      | false =>
          have hstep : step fetches s = (s, []) := by simp [step, h]
          simpa [runP, hstep] using ih s h
      | true =>
          have hstep : step fetches { s with stopped := true } =
              ({ s with stopped := true }, []) := by simp [step, h]
          simpa [runP, hstep] using ih { s with stopped := true } (by simp [h])

/-- C3 as stated is false: the loop checks the cancellation flag only in
the `while` condition, not before the poll-interval sleep.  Concretely, the
state at the sleep point with the flag already set is reachable (stop
delivered during the tick body), and from it the machine still performs the
sleep instead of exiting. -/
theorem sleep_not_guarded_by_cancellation :
    (runP fetchesFail [false, true] ⟨LoopPC.check, 0, false⟩).1 =
        ⟨LoopPC.pollSleep, 0, true⟩ ∧
      step fetchesFail ⟨LoopPC.pollSleep, 0, true⟩ =
        (⟨LoopPC.check, 1, true⟩, [LoopAction.slept]) :=
  ⟨rfl, rfl⟩

/-- C3 amended: cancellation is checked only at the top of the loop, before
each tick (the sleep at the end of an iteration is unguarded and still runs
once); once the check observes the flag, no further action of any kind — no
fetch, no rendered frame, no sleep — occurs and the tick counter never
advances, however the loop is scheduled and whatever the fetches return. -/
theorem no_activity_after_cancellation_observed (fetches : ℕ → Except String NavStatus)
    (ds : List Bool) (s : LoopState) (h1 : s.pc = LoopPC.check)
    (h2 : s.stopped = true) :
    (runP fetches ds s).2 = [] ∧ (runP fetches ds s).1.tick = s.tick := by
  cases ds with
  | nil => simp [runP]
  | cons d ds =>
      have hs0 : (if d then { s with stopped := true } else s) =
          { s with stopped := true } := by
        cases d
        · simp [← h2]
        · simp
      have hstep : step fetches { s with stopped := true } =
          ({ s with pc := LoopPC.halted, stopped := true }, []) := by
        simp [step, h1]
      have hrest := runP_halted fetches ds
        { s with pc := LoopPC.halted, stopped := true } (by simp)
      refine ⟨?_, ?_⟩
      · simp [runP, hs0, hstep, hrest.2.2]
      · simp [runP, hs0, hstep]
        exact hrest.2.1
/-- Witness for C3's amended theorem: a loop already at its check with the
flag set performs no action over three scheduled steps and its tick counter
stays at 2. -/
theorem no_activity_after_cancellation_observed_witness :
    (runP fetchesFail [false, false, false] ⟨LoopPC.check, 2, true⟩).2 = [] ∧
      (runP fetchesFail [false, false, false]
        ⟨LoopPC.check, 2, true⟩).1.tick = (⟨LoopPC.check, 2, true⟩ : LoopState).tick :=
  no_activity_after_cancellation_observed fetchesFail [false, false, false]
    ⟨LoopPC.check, 2, true⟩ rfl rfl

/-- C6: a tick whose fetch fails performs the fetch, renders exactly one
"retrying" notice (and nothing else — not the card cycle), sleeps the poll
interval, and returns to the loop check with the tick counter advanced: the
error is absorbed at the tick boundary and never terminates the session. -/
theorem failed_fetch_one_retry_notice (fetches : ℕ → Except String NavStatus)
    (t : ℕ) (e : String) (hf : fetches t = Except.error e) :
    runP fetches [false, false, false] ⟨LoopPC.check, t, false⟩ =
      (⟨LoopPC.check, t + 1, false⟩,
        [LoopAction.fetched (Except.error e),
          LoopAction.rendered "Network error — retrying...", LoopAction.slept]) := by
  simp [runP, step, hf]

/-- Witness for C6 with a simulated HTTP 500 on every tick. -/
theorem failed_fetch_one_retry_notice_witness :
    runP fetchesFail [false, false, false] ⟨LoopPC.check, 0, false⟩ =
      (⟨LoopPC.check, 1, false⟩,
        [LoopAction.fetched (Except.error "HTTP 500"),
          LoopAction.rendered "Network error — retrying...", LoopAction.slept]) :=
  failed_fetch_one_retry_notice fetchesFail 0 "HTTP 500" rfl

/-! ## Claim about double session start -/

/-- C10: starting a second loop (instance `k2`) for a sessionId that is
already registered to instance `k1` silently overwrites the registry entry;
a subsequent `onStop` sets only instance `k2`'s flag and removes the entry,
so instance `k1`'s flag is never set — not even by a further `onStop` —
and the first loop never observes cancellation. -/
theorem double_start_orphans_first_loop (st : AppState) (sid : String)
    (k1 k2 : ℕ) (hne : k1 ≠ k2) :
    ((onSessionReg (onSessionReg st sid k1) sid k2).stopper sid = some k2) ∧
      ((onStopReg (onSessionReg (onSessionReg st sid k1) sid k2) sid).flags k2 = true) ∧
      ((onStopReg (onSessionReg (onSessionReg st sid k1) sid k2) sid).flags k1 = false) ∧
      ((onStopReg (onSessionReg (onSessionReg st sid k1) sid k2) sid).stopper sid = none) ∧
      ((onStopReg (onStopReg (onSessionReg (onSessionReg st sid k1) sid k2) sid) sid).flags
          k1 = false) := by
  simp [onSessionReg, onStopReg, hne]

/-- Witness for C10 at a concrete empty registry, sessionId "session-1",
loop instances 0 and 1. -/
theorem double_start_orphans_first_loop_witness :
    ((onSessionReg (onSessionReg ⟨fun _ => none, fun _ => false⟩ "session-1" 0)
        "session-1" 1).stopper "session-1" = some 1) ∧
      ((onStopReg (onSessionReg (onSessionReg ⟨fun _ => none, fun _ => false⟩ "session-1" 0)
        "session-1" 1) "session-1").flags 1 = true) ∧
      ((onStopReg (onSessionReg (onSessionReg ⟨fun _ => none, fun _ => false⟩ "session-1" 0)
        "session-1" 1) "session-1").flags 0 = false) ∧
      ((onStopReg (onSessionReg (onSessionReg ⟨fun _ => none, fun _ => false⟩ "session-1" 0)
        "session-1" 1) "session-1").stopper "session-1" = none) ∧
      ((onStopReg (onStopReg (onSessionReg (onSessionReg ⟨fun _ => none, fun _ => false⟩
        "session-1" 0) "session-1" 1) "session-1") "session-1").flags 0 = false) :=
  double_start_orphans_first_loop ⟨fun _ => none, fun _ => false⟩ "session-1" 0 1
    (by decide)

end PirNav
